import Mathlib

/- Shallow embedding of src/bikeshare.py.

   A pandas DataFrame is modelled as a list of rows together with presence
   flags for the optional columns (the schema is fixed per source file).  The
   derived columns month, day_of_week and start_hour always exist after
   load_data derives them from the required Start Time column, so they are
   total fields of a row.  Cells of optional columns are Option values, none
   modelling NaN.  Python numbers are modelled as Rat.  Exceptions raised by
   the code (KeyError from mode()[0] on an empty Series, IndexError from list
   indexing and .index[0] on an empty grouping, ValueError from int(nan)) are
   explicit constructors of the result types, and the EmptyColumn signal that
   the specification names is also a constructor so that statements about it
   can be expressed; the code never produces it. -/

def CITY_DATA : List (String × String) :=
  [("chicago", "chicago.csv"), ("new york city", "new_york_city.csv"),
   ("washington", "washington.csv")]

def VALID_MONTH_OPTIONS : List String :=
  ["all", "january", "february", "march", "april", "may", "june"]

def VALID_WEEKDAY_OPTIONS : List String :=
  ["all", "monday", "tuesday", "wednesday", "thursday", "friday", "saturday",
   "sunday"]

/-- Models the acceptance test of the get_user_input loop (line 33 of
    bikeshare.py): a response is accepted exactly when it occurs in
    valid_input_list. -/
def accepted_input (valid_input_list : List String) (response : String) :
    Bool :=
  valid_input_list.contains response

/-- One trip record after load_data has derived month, day_of_week and
    start_hour from the Start Time column.  Optional columns are Option
    valued; none models a NaN cell. -/
structure Row where
  month : Nat
  day_of_week : String
  start_hour : String
  startStation : Option String
  endStation : Option String
  tripDuration : Option Rat
  userType : Option String
  gender : Option String
  birthYear : Option Int
deriving DecidableEq

/-- A pandas DataFrame: the per-file schema (which optional columns exist,
    as consulted by column_exists) together with the ordered rows. -/
structure DataFrame where
  hasStartStation : Bool
  hasEndStation : Bool
  hasTripDuration : Bool
  hasUserType : Bool
  hasGender : Bool
  hasBirthYear : Bool
  rows : List Row
deriving DecidableEq

/-- Number of occurrences of x in l: the value_counts entry of x. -/
def countVal {α : Type} [DecidableEq α] (l : List α) (x : α) : Nat :=
  (l.filter fun y => decide (y = x)).length

/-- The non-missing cells of a column, in row order (pandas statistics skip
    NaN cells). -/
def colVals {α : Type} (cells : List (Option α)) : List α :=
  cells.filterMap id

/-- First element of a list under the comparison le, i.e. the index 0
    element after an ascending sort; none on the empty list, which models the
    KeyError of mode()[0] and the IndexError of .index[0]. -/
def minByLe {α : Type} (le : α → α → Bool) : List α → Option α
  | [] => none
  | x :: xs => some (xs.foldl (fun a b => if le a b then a else b) x)

/-- The distinct values of l whose multiplicity in l is maximal: the
    candidate set that pandas Series.mode returns. -/
def maximizers {α : Type} [DecidableEq α] (l : List α) : List α :=
  l.dedup.filter fun x => l.dedup.all fun y =>
    decide (countVal l y ≤ countVal l x)

/-- pandas Series.mode()[0]: mode() lists the values of maximal multiplicity
    in ascending sorted order and [0] takes the first, hence the least; on an
    empty Series the mode list is empty and [0] raises KeyError (none). -/
def modeVal {α : Type} [LinearOrder α] (l : List α) : Option α :=
  minByLe (fun a b => decide (a ≤ b)) (maximizers l)

/-- The structured content of the report line printed by
    display_popular_stats (lines 152-157 of bikeshare.py). -/
structure ModeStat (α : Type) where
  label : Option String
  modeValue : α
  count : Nat
  total : Nat
  percent : Rat
deriving DecidableEq

/-- Outcome of a single-column popularity statistic.  columnAbsent is the
    early return after the column_exists warning; keyError is the KeyError
    raised by mode()[0] on an empty Series; indexError is the IndexError
    raised by display_lookup_list[popular_element] when the index is past the
    end of the list; emptyColumn is the no-data signal named by the
    specification, which the code never produces. -/
inductive StatResult (α : Type) where
  | columnAbsent
  | emptyColumn
  | keyError
  | indexError
  | ok (s : ModeStat α)
deriving DecidableEq

/-- Lines 126-157 of bikeshare.py.  present is the column_exists check;
    cells is the data column; lookup models display_lookup_list, given as the
    indexing function of the Python list with out-of-range indices mapped to
    none (an IndexError).  The .title() call on the looked-up name is
    String.capitalize, which agrees with it on the single lowercase words in
    VALID_MONTH_OPTIONS. -/
def display_popular_stats {α : Type} [LinearOrder α]
    (present : Bool) (cells : List (Option α))
    (lookup : Option (α → Option String)) : StatResult α :=
  if present = false then StatResult.columnAbsent
  else
    match modeVal (colVals cells) with
    | none => StatResult.keyError
    | some m =>
      let vals := colVals cells
      let count := countVal vals m
      let total := vals.length
      let percent : Rat := (count : Rat) / (total : Rat) * 100
      match lookup with
      | none => StatResult.ok ⟨none, m, count, total, percent⟩
      | some lk =>
        match lk m with
        | none => StatResult.indexError
        | some s => StatResult.ok ⟨some s.capitalize, m, count, total, percent⟩

/-- The filtering part of load_data (lines 99-112 of bikeshare.py), applied
    to the already derived table: the month filter translates the month name
    through VALID_MONTH_OPTIONS.index and compares with the derived month
    column, then the weekday filter compares the derived day_of_week column
    with the title-cased requested day. -/
def load_data (df : DataFrame) (month day : String) : DataFrame :=
  let df1 :=
    if month ≠ "all" then
      { df with rows := df.rows.filter (fun r =>
          decide (r.month = VALID_MONTH_OPTIONS.indexOf month)) }
    else df
  if day ≠ "all" then
    { df1 with rows := df1.rows.filter (fun r =>
        decide (r.day_of_week = day.capitalize)) }
  else df1

/-- The month lookup handed to display_popular_stats by time_stats (line 180
    of bikeshare.py): Python list indexing into VALID_MONTH_OPTIONS. -/
def month_lookup : Nat → Option String := fun n => VALID_MONTH_OPTIONS[n]?

/-- time_stats (lines 171-188): the three popularity statistics over the
    always-present derived columns, the month one with the name lookup. -/
def time_stats (df : DataFrame) :
    StatResult Nat × StatResult String × StatResult String :=
  (display_popular_stats true (df.rows.map fun r => some r.month)
      (some month_lookup),
   display_popular_stats true (df.rows.map fun r => some r.day_of_week) none,
   display_popular_stats true (df.rows.map fun r => some r.start_hour) none)

/-- The grouping keys of df.groupby([Start Station, End Station]): rows in
    which either key cell is NaN are dropped from the grouping. -/
def stationPairs (rows : List Row) : List (String × String) :=
  rows.filterMap fun r =>
    r.startStation.bind fun a => r.endStation.map fun b => (a, b)

/-- Lexicographic comparison of station pairs, the ascending key order of
    the groupby result. -/
def strPairLe (p q : String × String) : Bool :=
  decide (p.1 < q.1) || (decide (p.1 = q.1) && decide (p.2 ≤ q.2))

/-- Outcome of the start/end station pair statistic (lines 206-214).
    indexError is the IndexError of .index[0] on an empty grouping;
    emptyColumn is the signal named by the specification, never produced. -/
inductive PairResult where
  | columnAbsent
  | emptyColumn
  | indexError
  | ok (pair : String × String) (count : Nat) (total : Nat) (percent : Rat)
deriving DecidableEq

/-- The pair selected by sort_values(ascending=False).index[0] on the group
    counts: a pair of maximal count; among count ties the least key in the
    ascending key order of the groupby table is kept. -/
def station_pair_top (pairs : List (String × String)) :
    Option (String × String) :=
  minByLe strPairLe (maximizers pairs)

/-- station_stats (lines 191-216): popularity of each station column, then
    the most frequent start/end pair guarded by both column_exists checks;
    the pair count is the group size and total is the count of non-missing
    End Station cells (line 208). -/
def station_stats (df : DataFrame) :
    StatResult String × StatResult String × PairResult :=
  (display_popular_stats df.hasStartStation
      (df.rows.map fun r => r.startStation) none,
   display_popular_stats df.hasEndStation
      (df.rows.map fun r => r.endStation) none,
   if df.hasStartStation && df.hasEndStation then
     match station_pair_top (stationPairs df.rows) with
     | none => PairResult.indexError
     | some p =>
       let pairs := stationPairs df.rows
       let total := (df.rows.filterMap fun r => r.endStation).length
       PairResult.ok p (countVal pairs p) total
         ((countVal pairs p : Rat) / (total : Rat) * 100)
   else PairResult.columnAbsent)

/-- Outcome of trip_duration_stats.  The code prints the sum and the mean
    whenever the column exists; emptyColumn is the signal named by the
    specification, never produced. -/
inductive DurationResult where
  | columnAbsent
  | emptyColumn
  | ok (sum : Rat) (mean : Option Rat)
deriving DecidableEq

/-- pandas Series.sum: the sum of the non-missing cells, 0 when there are
    none. -/
def pandasSum (cells : List (Option Rat)) : Rat := (colVals cells).sum

/-- pandas Series.mean: the sum of the non-missing cells divided by their
    count; NaN (none) when there are none. -/
def pandasMean (cells : List (Option Rat)) : Option Rat :=
  if (colVals cells).length = 0 then none
  else some ((colVals cells).sum / ((colVals cells).length : Rat))

/-- trip_duration_stats (lines 218-235): guarded by column_exists, then the
    total and mean travel time of the Trip Duration column. -/
def trip_duration_stats (df : DataFrame) : DurationResult :=
  if df.hasTripDuration = false then DurationResult.columnAbsent
  else
    DurationResult.ok (pandasSum (df.rows.map fun r => r.tripDuration))
      (pandasMean (df.rows.map fun r => r.tripDuration))

/-- Outcome of the birth-year block of user_stats (lines 259-268).
    valueError is the ValueError raised by int(nan) when the column has no
    non-missing value. -/
inductive ExtremaResult where
  | columnAbsent
  | valueError
  | ok (min max mode : Int)
deriving DecidableEq

/-- The frame printed by the user_stats count blocks (lines 248-249 and
    255-256): for every distinct non-missing value its count together with
    the attached Percent column, which is value_counts(normalize=True), that
    is count divided by total with no multiplication by 100.  value_counts
    orders its rows by descending count; the embedding keeps a different row
    order but carries the same rows. -/
def value_counts_frame (vals : List String) : List (String × Nat × Rat) :=
  vals.dedup.map fun v =>
    (v, countVal vals v, (countVal vals v : Rat) / (vals.length : Rat))

/-- user_stats (lines 238-270): the user-type and gender count frames, each
    guarded by column_exists (none models the skipped block), and the
    earliest, most recent and most common birth year, each passed through
    int(). -/
def user_stats (df : DataFrame) :
    Option (List (String × Nat × Rat)) × Option (List (String × Nat × Rat)) ×
      ExtremaResult :=
  ((if df.hasUserType then
      some (value_counts_frame (colVals (df.rows.map fun r => r.userType)))
    else none),
   (if df.hasGender then
      some (value_counts_frame (colVals (df.rows.map fun r => r.gender)))
    else none),
   (if df.hasBirthYear then
      match (colVals (df.rows.map fun r => r.birthYear)).min?,
          (colVals (df.rows.map fun r => r.birthYear)).max?,
          modeVal (colVals (df.rows.map fun r => r.birthYear)) with
      | some a, some b, some c => ExtremaResult.ok a b c
      | _, _, _ => ExtremaResult.valueError
    else ExtremaResult.columnAbsent))

/-- A three-row dataset with months [1, 1, 6], station pairs
    [(A,B), (A,B), (A,C)], durations [300, 60, 120] and user types
    [Subscriber, Subscriber, Customer]: the concrete dataset of scenarios A
    and D of the specification. -/
def dfA : DataFrame :=
  ⟨true, true, true, true, true, true,
   [⟨1, "Monday", "08 AM", some "A", some "B", some 300, some "Subscriber",
     some "Male", some 1990⟩,
    ⟨1, "Tuesday", "09 AM", some "A", some "B", some 60, some "Subscriber",
     some "Female", some 1985⟩,
    ⟨6, "Monday", "08 AM", some "A", some "C", some 120, some "Customer",
     none, none⟩]⟩

/-- A dataset with every column present and zero rows: an empty filter
    result. -/
def emptyDF : DataFrame := ⟨true, true, true, true, true, true, []⟩

/-- A dataset whose Trip Duration column exists but holds only NaN. -/
def dfDurMissing : DataFrame :=
  ⟨true, true, true, true, true, true,
   [⟨1, "Monday", "08 AM", some "A", some "B", none, some "Subscriber",
     none, none⟩]⟩

/-- A dataset with no optional column at all. -/
def dfNoCols : DataFrame :=
  ⟨false, false, false, false, false, false,
   [⟨1, "Monday", "08 AM", none, none, none, none, none, none⟩]⟩

/-- A one-row dataset whose trip starts in July, month 7. -/
def dfJuly : DataFrame :=
  ⟨true, true, true, true, true, true,
   [⟨7, "Friday", "10 AM", some "A", some "B", some 60, some "Customer",
     none, none⟩]⟩

/-- The multiplicity of any value is bounded by the column length. -/
theorem countVal_le_length {α : Type} [DecidableEq α] (l : List α) (x : α) :
    countVal l x ≤ l.length :=
  List.length_filter_le _ _

/-- A value that does not occur has multiplicity zero. -/
theorem countVal_eq_zero_of_not_mem {α : Type} [DecidableEq α] {l : List α}
    {x : α} (h : x ∉ l) : countVal l x = 0 := by
  simp only [countVal, List.length_eq_zero, List.filter_eq_nil_iff,
    decide_eq_true_eq]
  rintro a ha rfl
  exact h ha

/-- Membership in the mode candidate set: an occurring value whose
    multiplicity dominates every occurring value. -/
theorem mem_maximizers {α : Type} [DecidableEq α] {l : List α} {x : α} :
    x ∈ maximizers l ↔ x ∈ l ∧ ∀ y ∈ l, countVal l y ≤ countVal l x := by
  simp [maximizers, List.mem_filter, List.all_eq_true, List.mem_dedup]

/-- The foldl realizing minByLe stays inside the candidate list. -/
theorem foldl_minBy_mem {α : Type} (le : α → α → Bool) :
    ∀ (xs : List α) (x : α),
      xs.foldl (fun a b => if le a b then a else b) x ∈ x :: xs := by
  intro xs
  induction xs with
  | nil => intro x; simp
  | cons y ys ih =>
    intro x
    have h := ih (if le x y then x else y)
    simp only [List.foldl_cons]
    rcases List.mem_cons.mp h with h1 | h1
    · rw [h1]
      by_cases hc : le x y
      · simp [hc]
      · simp [hc]
    · simp only [List.mem_cons]
      right; right; exact h1

/-- The element selected by minByLe occurs in the list. -/
theorem minByLe_mem {α : Type} {le : α → α → Bool} {l : List α} {a : α}
    (h : minByLe le l = some a) : a ∈ l := by
  cases l with
  | nil => simp [minByLe] at h
  | cons x xs =>
    simp only [minByLe, Option.some.injEq] at h
    exact h ▸ foldl_minBy_mem le xs x

/-- minByLe returns a value on every nonempty list. -/
theorem minByLe_isSome {α : Type} (le : α → α → Bool) {l : List α}
    (h : l ≠ []) : (minByLe le l).isSome = true := by
  cases l with
  | nil => exact absurd rfl h
  | cons x xs => simp [minByLe]

/-- Under a linear order, the minByLe fold computes a lower bound of the
    start value and of every listed value. -/
theorem foldl_minBy_le {α : Type} [LinearOrder α] :
    ∀ (xs : List α) (x : α),
      xs.foldl (fun a b => if decide (a ≤ b) then a else b) x ≤ x ∧
        ∀ b ∈ xs, xs.foldl (fun a b => if decide (a ≤ b) then a else b) x ≤ b := by
  have hmin : ∀ (xs : List α) (x : α),
      xs.foldl (fun a b => if decide (a ≤ b) then a else b) x =
        xs.foldl min x := by
    intro xs x
    simp only [decide_eq_true_eq, ← min_def]
  intro xs
  induction xs with
  | nil => intro x; exact ⟨le_refl x, by simp⟩
  | cons y ys ih =>
    intro x
    obtain ⟨h1, h2⟩ := ih (if decide (x ≤ y) then x else y)
    have hxy : (if decide (x ≤ y) then x else y) ≤ x ∧
        (if decide (x ≤ y) then x else y) ≤ y := by
      simp only [decide_eq_true_eq, ← min_def]
      exact ⟨min_le_left x y, min_le_right x y⟩
    simp only [List.foldl_cons]
    refine ⟨le_trans h1 hxy.1, ?_⟩
    intro b hb
    rcases List.mem_cons.mp hb with rfl | hb2
    · exact le_trans h1 hxy.2
    · exact h2 b hb2

/-- Under a linear order, minByLe selects a least element. -/
theorem minByLe_le {α : Type} [LinearOrder α] {l : List α} {a : α}
    (h : minByLe (fun a b => decide (a ≤ b)) l = some a) :
    ∀ b ∈ l, a ≤ b := by
  cases l with
  | nil => simp [minByLe] at h
  | cons x xs =>
    simp only [minByLe, Option.some.injEq] at h
    intro b hb
    obtain ⟨h1, h2⟩ := foldl_minBy_le xs x
    rcases List.mem_cons.mp hb with rfl | hb2
    · exact h ▸ h1
    · exact h ▸ h2 b hb2

/-- Every nonempty list has an element of maximal image under f. -/
theorem exists_argmax {α : Type} (f : α → Nat) :
    ∀ (l : List α), l ≠ [] → ∃ x ∈ l, ∀ y ∈ l, f y ≤ f x := by
  intro l
  induction l with
  | nil => intro h; exact absurd rfl h
  | cons a as ih =>
    intro _
    by_cases has : as = []
    · subst has
      exact ⟨a, List.mem_cons_self a [], by simp⟩
    · obtain ⟨x, hx, hmax⟩ := ih has
      by_cases hc : f a ≤ f x
      · refine ⟨x, List.mem_cons_of_mem a hx, ?_⟩
        intro y hy
        rcases List.mem_cons.mp hy with rfl | hy2
        · exact hc
        · exact hmax y hy2
      · refine ⟨a, List.mem_cons_self a as, ?_⟩
        intro y hy
        rcases List.mem_cons.mp hy with rfl | hy2
        · exact le_refl _
        · exact le_trans (hmax y hy2) (le_of_not_le hc)

/-- The mode candidate set of a nonempty list is nonempty, so mode()[0]
    returns a value on every nonempty column. -/
theorem modeVal_isSome {α : Type} [LinearOrder α] {l : List α}
    (h : l ≠ []) : (modeVal l).isSome = true := by
  obtain ⟨x, hx, hmax⟩ := exists_argmax (countVal l) l.dedup
    (by simpa [Ne, List.dedup_eq_nil] using h)
  apply minByLe_isSome
  intro hnil
  have : x ∈ maximizers l := by
    simp only [maximizers, List.mem_filter, List.all_eq_true,
      decide_eq_true_eq]
    exact ⟨hx, hmax⟩
  rw [hnil] at this
  exact absurd this (List.not_mem_nil x)

/-- What mode()[0] returns: an occurring value of maximal multiplicity, and
    the least value among the tied maximal ones. -/
theorem modeVal_spec {α : Type} [LinearOrder α] {l : List α} {m : α}
    (h : modeVal l = some m) :
    m ∈ l ∧ (∀ y ∈ l, countVal l y ≤ countVal l m) ∧
      ∀ y ∈ l, countVal l y = countVal l m → m ≤ y := by
  have hmem := minByLe_mem h
  rw [mem_maximizers] at hmem
  refine ⟨hmem.1, hmem.2, ?_⟩
  intro y hy hcnt
  apply minByLe_le h
  rw [mem_maximizers]
  exact ⟨hy, fun z hz => hcnt ▸ hmem.2 z hz⟩

/-- With the weekday filter set to all, load_data keeps exactly the rows
    whose derived month equals the index of the requested month name in
    VALID_MONTH_OPTIONS. -/
theorem load_month_rows (df : DataFrame) (name : String)
    (hne : ¬ name = "all") :
    (load_data df name "all").rows = df.rows.filter (fun r =>
      decide (r.month = VALID_MONTH_OPTIONS.indexOf name)) := by
  simp [load_data, hne]

/-- Specialization of load_month_rows to a computed index value. -/
theorem month_filter_case (df : DataFrame) (name : String) (m : Nat)
    (hne : ¬ name = "all") (hidx : VALID_MONTH_OPTIONS.indexOf name = m) :
    (load_data df name "all").rows =
      df.rows.filter (fun r => decide (r.month = m)) := by
  subst hidx
  exact load_month_rows df name hne

/-- C4 counterexample: the month filter does not accept every numeric month
    in 1..12; the option list stops at june, so july and december, months 7
    and 12, are rejected by the input validation. -/
theorem month_accepts_only_six_cex :
    VALID_MONTH_OPTIONS =
      ["all", "january", "february", "march", "april", "may", "june"] ∧
    VALID_MONTH_OPTIONS.length = 7 ∧
    accepted_input VALID_MONTH_OPTIONS "july" = false ∧
    accepted_input VALID_MONTH_OPTIONS "december" = false := by
  refine ⟨rfl, by decide, by decide, by decide⟩

/-- C4 amended: the month filter accepts only all and the six month names
    january..june; for every dataset and every month m in 1..6, filtering by
    the name of month m keeps exactly the records whose derived month equals
    m, with 1-based numbering where january = 1. -/
theorem month_filter_amended (df : DataFrame) (m : Nat) (name : String)
    (h1 : 1 ≤ m) (h2 : m ≤ 6)
    (hname : VALID_MONTH_OPTIONS[m]? = some name) :
    accepted_input VALID_MONTH_OPTIONS name = true ∧ ¬ name = "all" ∧
    (load_data df name "all").rows =
      df.rows.filter (fun r => decide (r.month = m)) := by
  interval_cases m
  · rw [show (VALID_MONTH_OPTIONS[1]? : Option String) = some "january"
      from by decide] at hname
    injection hname with h
    subst h
    exact ⟨by decide, by decide,
      month_filter_case df "january" 1 (by decide) (by decide)⟩
  · rw [show (VALID_MONTH_OPTIONS[2]? : Option String) = some "february"
      from by decide] at hname
    injection hname with h
    subst h
    exact ⟨by decide, by decide,
      month_filter_case df "february" 2 (by decide) (by decide)⟩
  · rw [show (VALID_MONTH_OPTIONS[3]? : Option String) = some "march"
      from by decide] at hname
    injection hname with h
    subst h
    exact ⟨by decide, by decide,
      month_filter_case df "march" 3 (by decide) (by decide)⟩
  · rw [show (VALID_MONTH_OPTIONS[4]? : Option String) = some "april"
      from by decide] at hname
    injection hname with h
    subst h
    exact ⟨by decide, by decide,
      month_filter_case df "april" 4 (by decide) (by decide)⟩
  · rw [show (VALID_MONTH_OPTIONS[5]? : Option String) = some "may"
      from by decide] at hname
    injection hname with h
    subst h
    exact ⟨by decide, by decide,
      month_filter_case df "may" 5 (by decide) (by decide)⟩
  · rw [show (VALID_MONTH_OPTIONS[6]? : Option String) = some "june"
      from by decide] at hname
    injection hname with h
    subst h
    exact ⟨by decide, by decide,
      month_filter_case df "june" 6 (by decide) (by decide)⟩

/-- C4 witness: the amended statement evaluated at month 6, june, on the
    concrete three-row dataset. -/
theorem month_filter_amended_witness :
    accepted_input VALID_MONTH_OPTIONS "june" = true ∧ ¬ "june" = "all" ∧
    (load_data dfA "june" "all").rows =
      dfA.rows.filter (fun r => decide (r.month = 6)) :=
  month_filter_amended dfA 6 "june" (by decide) (by decide) (by decide)

/-- C9: the month filter and the weekday filter commute, applying them one
    after the other equals applying the combined filter specification, and
    the combined result keeps exactly the rows passing both equality tests,
    the intersection of the two single-filter results. -/
theorem filters_commute (df : DataFrame) (M W : String) :
    load_data (load_data df M "all") "all" W = load_data df M W ∧
    load_data (load_data df "all" W) M "all" = load_data df M W ∧
    (load_data df M W).rows = df.rows.filter (fun r =>
      (decide (M = "all") ||
        decide (r.month = VALID_MONTH_OPTIONS.indexOf M)) &&
      (decide (W = "all") || decide (r.day_of_week = W.capitalize))) := by
  by_cases hM : M = "all" <;> by_cases hW : W = "all" <;>
    simp [load_data, hM, hW, List.filter_filter, Bool.and_comm]

/-- C10: the month-name lookup list has exactly seven entries, indexing it
    with any month from 7 to 12 is out of range, and on a July dataset that
    passes the all filter unchanged the month statistic of time_stats fails
    with the out-of-range IndexError instead of printing a labelled
    result. -/
theorem month_lookup_out_of_range :
    VALID_MONTH_OPTIONS.length = 7 ∧
    month_lookup 7 = none ∧ month_lookup 8 = none ∧ month_lookup 9 = none ∧
    month_lookup 10 = none ∧ month_lookup 11 = none ∧
    month_lookup 12 = none ∧
    load_data dfJuly "all" "all" = dfJuly ∧
    (time_stats dfJuly).1 = StatResult.indexError := by
  refine ⟨by decide, by decide, by decide, by decide, by decide, by decide,
    by decide, by decide, by decide⟩

/-- C5: on a column with at least one non-missing value the mode statistic
    is computed and returns a most frequent non-missing value, total is the
    count of non-missing entries and percent is 100 times count over
    total. -/
theorem mode_stat_correct {α : Type} [LinearOrder α]
    (cells : List (Option α)) :
    (colVals cells ≠ [] → (modeVal (colVals cells)).isSome = true) ∧
    ∀ m, modeVal (colVals cells) = some m →
      m ∈ colVals cells ∧
      (∀ y ∈ colVals cells,
        countVal (colVals cells) y ≤ countVal (colVals cells) m) ∧
      display_popular_stats true cells none =
        StatResult.ok ⟨none, m, countVal (colVals cells) m,
          (colVals cells).length,
          (countVal (colVals cells) m : Rat) /
            ((colVals cells).length : Rat) * 100⟩ := by
  constructor
  · exact fun h => modeVal_isSome h
  · intro m hm
    obtain ⟨h1, h2, _⟩ := modeVal_spec hm
    refine ⟨h1, h2, ?_⟩
    simp [display_popular_stats, hm]

/-- C5 witness: scenario A, months [1, 1, 6]: mode 1, count 2, total 3,
    percent 200/3, about 66.67. -/
theorem mode_stat_correct_witness :
    display_popular_stats true [some 1, some 1, some (6:Nat)] none =
      StatResult.ok ⟨none, 1, 2, 3, 200/3⟩ := by
  have h := (mode_stat_correct [some 1, some 1, some (6:Nat)]).2 1 (by decide)
  rw [h.2.2]
  have hc : countVal (colVals [some 1, some 1, some (6:Nat)]) 1 = 2 := by
    decide
  have hl : (colVals [some 1, some 1, some (6:Nat)]).length = 3 := by decide
  rw [hc, hl]
  simp only [StatResult.ok.injEq, ModeStat.mk.injEq]
  norm_num

/-- C6 counterexample: on the column [6, 1] both values are tied with one
    occurrence each, the first value encountered in input order is 6, yet
    the mode statistic deterministically selects 1, the least tied value,
    not the first-seen one. -/
theorem mode_tiebreak_cex :
    countVal [(6:Nat), 1] 6 = countVal [(6:Nat), 1] 1 ∧
    ([(6:Nat), 1]).head? = some 6 ∧
    modeVal [(6:Nat), 1] = some 1 ∧
    display_popular_stats true [some (6:Nat), some 1] none =
      StatResult.ok ⟨none, 1, 1, 2, 50⟩ := by
  have hm : modeVal (colVals [some (6:Nat), some 1]) = some 1 := by decide
  have hc : countVal (colVals [some (6:Nat), some 1]) 1 = 1 := by decide
  have hl : (colVals [some (6:Nat), some 1]).length = 2 := by decide
  refine ⟨by decide, by decide, by decide, ?_⟩
  simp [display_popular_stats, hm, hc, hl]
  norm_num

/-- C6 amended: the mode selection is deterministic, but among tied values
    it picks the least value in the ascending sorted order of the mode
    candidates, not the first-seen value in input order. -/
theorem mode_tiebreak_amended {α : Type} [LinearOrder α] (l : List α)
    (m : α) (h : modeVal l = some m) :
    m ∈ l ∧ (∀ y ∈ l, countVal l y ≤ countVal l m) ∧
      ∀ y ∈ l, countVal l y = countVal l m → m ≤ y :=
  modeVal_spec h

/-- C6 witness: on the tied column [6, 1] the amended rule shows the
    selected value 1 occurs and sits below the tied value 6. -/
theorem mode_tiebreak_amended_witness :
    (1:Nat) ∈ [(6:Nat), 1] ∧ (1:Nat) ≤ 6 :=
  ⟨(mode_tiebreak_amended [(6:Nat), 1] 1 (by decide)).1,
   (mode_tiebreak_amended [(6:Nat), 1] 1 (by decide)).2.2 6 (by decide)
     (by decide)⟩

/-- C1 counterexample: on the empty view with every column present the
    month statistic raises the KeyError of mode()[0], a crash rather than an
    EmptyColumn or ColumnAbsent signal, and the station pair and birth-year
    statistics raise as well. -/
theorem empty_view_crash_cex :
    (time_stats emptyDF).1 = StatResult.keyError ∧
    StatResult.keyError ≠ (StatResult.emptyColumn : StatResult Nat) ∧
    StatResult.keyError ≠ (StatResult.columnAbsent : StatResult Nat) ∧
    (station_stats emptyDF).2.2 = PairResult.indexError ∧
    (user_stats emptyDF).2.2 = ExtremaResult.valueError := by
  refine ⟨by decide, by decide, by decide, by decide, by decide⟩

/-- C1 amended: on a zero-row view the aggregates do not return a no-data
    signal: with the columns present the mode statistics fail with the
    KeyError of mode()[0] on an empty Series, the station pair statistic
    fails with the IndexError of .index[0] on an empty grouping, the
    birth-year extrema fail with the ValueError of int(nan), and the
    duration statistic still reports sum 0 with a NaN mean; only an absent
    column yields the ColumnAbsent signal. -/
theorem empty_view_behaviour (df : DataFrame) (h : df.rows = []) :
    (time_stats df).1 = StatResult.keyError ∧
    (time_stats df).2.1 = StatResult.keyError ∧
    (time_stats df).2.2 = StatResult.keyError ∧
    (df.hasStartStation = true →
      (station_stats df).1 = StatResult.keyError) ∧
    (df.hasEndStation = true →
      (station_stats df).2.1 = StatResult.keyError) ∧
    (df.hasStartStation = true → df.hasEndStation = true →
      (station_stats df).2.2 = PairResult.indexError) ∧
    (df.hasTripDuration = true →
      trip_duration_stats df = DurationResult.ok 0 none) ∧
    (df.hasBirthYear = true →
      (user_stats df).2.2 = ExtremaResult.valueError) ∧
    (df.hasTripDuration = false →
      trip_duration_stats df = DurationResult.columnAbsent) := by
  refine ⟨?_, ?_, ?_, ?_, ?_, ?_, ?_, ?_, ?_⟩
  · simp [time_stats, display_popular_stats, h, colVals, modeVal,
      maximizers, minByLe]
  · simp [time_stats, display_popular_stats, h, colVals, modeVal,
      maximizers, minByLe]
  · simp [time_stats, display_popular_stats, h, colVals, modeVal,
      maximizers, minByLe]
  · intro h1
    simp [station_stats, display_popular_stats, h, h1, colVals, modeVal,
      maximizers, minByLe]
  · intro h1
    simp [station_stats, display_popular_stats, h, h1, colVals, modeVal,
      maximizers, minByLe]
  · intro h1 h2
    simp [station_stats, h, h1, h2, station_pair_top, stationPairs,
      maximizers, minByLe]
  · intro h1
    simp [trip_duration_stats, h1, h, pandasSum, pandasMean, colVals]
  · intro h1
    simp [user_stats, h1, h, colVals, modeVal, maximizers, minByLe]
  · intro h1
    simp [trip_duration_stats, h1]

/-- C1 witness: the amended behaviour evaluated on the concrete empty
    dataset with every column present. -/
theorem empty_view_behaviour_witness :
    (time_stats emptyDF).1 = StatResult.keyError ∧
    (station_stats emptyDF).2.2 = PairResult.indexError ∧
    trip_duration_stats emptyDF = DurationResult.ok 0 none ∧
    (user_stats emptyDF).2.2 = ExtremaResult.valueError :=
  ⟨(empty_view_behaviour emptyDF rfl).1,
   (empty_view_behaviour emptyDF rfl).2.2.2.2.2.1 rfl rfl,
   (empty_view_behaviour emptyDF rfl).2.2.2.2.2.2.1 rfl,
   (empty_view_behaviour emptyDF rfl).2.2.2.2.2.2.2.1 rfl⟩

/-- C2 counterexample: on a present Trip Duration column whose every cell
    is missing the function does not signal EmptyColumn, it returns sum 0
    together with a NaN mean. -/
theorem sum_mean_empty_cex :
    trip_duration_stats dfDurMissing = DurationResult.ok 0 none ∧
    DurationResult.ok 0 none ≠ DurationResult.emptyColumn := by
  refine ⟨by decide, by decide⟩

/-- C2 amended: with the duration column present, sum is the arithmetic sum
    of the non-missing values and mean is sum divided by the count of
    non-missing values whenever that count is positive; when the count is 0
    the function still reports, with sum 0 and an undefined NaN mean, rather
    than signalling EmptyColumn. -/
theorem sum_mean_stat_amended (df : DataFrame)
    (hp : df.hasTripDuration = true) :
    ((colVals (df.rows.map fun r => r.tripDuration)).length ≠ 0 →
      trip_duration_stats df = DurationResult.ok
        (colVals (df.rows.map fun r => r.tripDuration)).sum
        (some ((colVals (df.rows.map fun r => r.tripDuration)).sum /
          ((colVals (df.rows.map fun r => r.tripDuration)).length : Rat)))) ∧
    ((colVals (df.rows.map fun r => r.tripDuration)).length = 0 →
      trip_duration_stats df = DurationResult.ok 0 none) := by
  constructor
  · intro h0
    simp [trip_duration_stats, hp, pandasSum, pandasMean, h0]
  · intro h0
    have hnil : colVals (df.rows.map fun r => r.tripDuration) = [] :=
      List.length_eq_zero.mp h0
    simp [trip_duration_stats, hp, pandasSum, pandasMean, hnil]

/-- C2 witness: durations [300, 60, 120] give sum 480 and mean 160. -/
theorem sum_mean_stat_amended_witness :
    trip_duration_stats dfA = DurationResult.ok 480 (some 160) := by
  have h := (sum_mean_stat_amended dfA rfl).1 (by decide)
  rw [h]
  have hv : colVals (dfA.rows.map fun r => r.tripDuration) =
      [300, 60, 120] := by decide
  rw [hv]
  simp only [DurationResult.ok.injEq, Option.some.injEq]
  norm_num [List.sum_cons, List.sum_nil]

/-- C3: every aggregate checks column presence first and returns the
    ColumnAbsent signal without computing anything, whatever the cells hold,
    and removing the duration column leaves every other report section
    unchanged, so in scenario B only the duration notice is printed while
    the rest of the report proceeds. -/
theorem column_absent_signals (df : DataFrame) :
    (∀ (α : Type) (inst : LinearOrder α) (cells : List (Option α))
      (lk : Option (α → Option String)),
      @display_popular_stats α inst false cells lk =
        StatResult.columnAbsent) ∧
    (df.hasTripDuration = false →
      trip_duration_stats df = DurationResult.columnAbsent) ∧
    (df.hasStartStation = false →
      (station_stats df).1 = StatResult.columnAbsent ∧
      (station_stats df).2.2 = PairResult.columnAbsent) ∧
    (df.hasEndStation = false →
      (station_stats df).2.1 = StatResult.columnAbsent ∧
      (station_stats df).2.2 = PairResult.columnAbsent) ∧
    (df.hasUserType = false → (user_stats df).1 = none) ∧
    (df.hasGender = false → (user_stats df).2.1 = none) ∧
    (df.hasBirthYear = false →
      (user_stats df).2.2 = ExtremaResult.columnAbsent) ∧
    time_stats { df with hasTripDuration := false } = time_stats df ∧
    station_stats { df with hasTripDuration := false } = station_stats df ∧
    user_stats { df with hasTripDuration := false } = user_stats df := by
  refine ⟨?_, ?_, ?_, ?_, ?_, ?_, ?_, rfl, rfl, rfl⟩
  · intro α inst cells lk
    simp [display_popular_stats]
  · intro h
    simp [trip_duration_stats, h]
  · intro h
    exact ⟨by simp [station_stats, h, display_popular_stats],
      by simp [station_stats, h]⟩
  · intro h
    exact ⟨by simp [station_stats, h, display_popular_stats],
      by simp [station_stats, h]⟩
  · intro h
    simp [user_stats, h]
  · intro h
    simp [user_stats, h]
  · intro h
    simp [user_stats, h]

/-- C3 witness: on the dataset with no optional columns each aggregate
    returns its absence signal. -/
theorem column_absent_signals_witness :
    trip_duration_stats dfNoCols = DurationResult.columnAbsent ∧
    (station_stats dfNoCols).2.2 = PairResult.columnAbsent ∧
    (user_stats dfNoCols).2.2 = ExtremaResult.columnAbsent :=
  ⟨(column_absent_signals dfNoCols).2.1 rfl,
   ((column_absent_signals dfNoCols).2.2.1 rfl).2,
   (column_absent_signals dfNoCols).2.2.2.2.2.2.1 rfl⟩

/-- Every row contributing a grouping pair also contributes a non-missing
    End Station cell, so there are at most as many grouped rows as
    non-missing end stations. -/
theorem stationPairs_length_le (rows : List Row) :
    (stationPairs rows).length ≤
      (rows.filterMap fun r => r.endStation).length := by
  induction rows with
  | nil => simp [stationPairs]
  | cons r rs ih =>
    simp only [stationPairs, List.filterMap_cons] at ih ⊢
    cases hs : r.startStation <;> cases he : r.endStation <;>
      simp [hs, he] <;> omega

/-- C7: whenever the station pair statistic returns a result, total is the
    count of non-missing end-station cells, the reported count is the group
    size of the selected pair, no pair groups more rows, count is at most
    total and percent is 100 times count over total. -/
theorem paired_mode_stat_correct (df : DataFrame) (p : String × String)
    (c t : Nat) (pct : Rat)
    (h : (station_stats df).2.2 = PairResult.ok p c t pct) :
    t = (df.rows.filterMap fun r => r.endStation).length ∧
    c = countVal (stationPairs df.rows) p ∧
    (∀ q, countVal (stationPairs df.rows) q ≤ c) ∧
    c ≤ t ∧
    pct = (c : Rat) / (t : Rat) * 100 := by
  simp only [station_stats] at h
  by_cases hse : (df.hasStartStation && df.hasEndStation) = true
  · rw [if_pos hse] at h
    cases htop : station_pair_top (stationPairs df.rows) with
    | none => rw [htop] at h; exact absurd h (by simp)
    | some p0 =>
      rw [htop] at h
      injection h with hp hc ht hpct
      subst hp
      have hmem := minByLe_mem htop
      rw [mem_maximizers] at hmem
      refine ⟨ht.symm, hc.symm, ?_, ?_, ?_⟩
      · intro q
        rw [← hc]
        by_cases hq : q ∈ stationPairs df.rows
        · exact hmem.2 q hq
        · rw [countVal_eq_zero_of_not_mem hq]
          exact Nat.zero_le _
      · rw [← hc, ← ht]
        exact le_trans (countVal_le_length _ _) (stationPairs_length_le _)
      · rw [← hpct, ← hc, ← ht]
  · rw [if_neg hse] at h
    exact absurd h (by simp)

/-- C7 witness: scenario D, station pairs [(A,B), (A,B), (A,C)]: top pair
    (A,B) with count 2 out of total 3 non-missing end stations, percent
    200/3, about 66.67, and count at most total. -/
theorem paired_mode_stat_correct_witness :
    (station_stats dfA).2.2 =
      PairResult.ok ("A", "B") 2 3 ((2 : Rat) / (3 : Rat) * 100) ∧
    (2 : Nat) ≤ 3 ∧ (2 : Rat) / (3 : Rat) * 100 = 200 / 3 := by
  have htop : station_pair_top (stationPairs dfA.rows) = some ("A", "B") := by
    decide
  have hc : countVal (stationPairs dfA.rows) ("A", "B") = 2 := by decide
  have hl : (dfA.rows.filterMap fun r => r.endStation).length = 3 := by decide
  have h : (station_stats dfA).2.2 =
      PairResult.ok ("A", "B") 2 3 ((2 : Rat) / (3 : Rat) * 100) := by
    simp only [station_stats, htop, hc, hl,
      show dfA.hasStartStation = true from rfl,
      show dfA.hasEndStation = true from rfl, Bool.and_self, if_true]
    norm_num
  exact ⟨h, (paired_mode_stat_correct dfA _ _ _ _ h).2.2.2.1, by norm_num⟩

/-- C8 evaluation at the failing input: with user types [Subscriber,
    Subscriber, Customer] the user report lists every distinct category with
    its count, but the attached Percent column holds count over total, the
    proportions 2/3 and 1/3, not count over total times 100 as the claimed
    percentages 66.67 and 33.33 would require. -/
theorem user_percent_column_eval :
    (user_stats dfA).1 =
      some [("Subscriber", 2, (2 : Rat) / 3),
        ("Customer", 1, (1 : Rat) / 3)] ∧
    (2 : Rat) / 3 ≠ (2 : Rat) / 3 * 100 := by
  constructor
  · have hv : colVals (dfA.rows.map fun r => r.userType) =
        ["Subscriber", "Subscriber", "Customer"] := by decide
    have hd : (["Subscriber", "Subscriber", "Customer"] :
        List String).dedup = ["Subscriber", "Customer"] := by decide
    have hc1 : countVal ["Subscriber", "Subscriber", "Customer"]
        "Subscriber" = 2 := by decide
    have hc2 : countVal ["Subscriber", "Subscriber", "Customer"]
        "Customer" = 1 := by decide
    simp only [user_stats, show dfA.hasUserType = true from rfl, if_true,
      hv, value_counts_frame, hd, List.map_cons, List.map_nil, hc1, hc2,
      show (["Subscriber", "Subscriber", "Customer"] :
        List String).length = 3 from rfl]
    norm_num
  · norm_num

